import Mathlib

/-!
Shallow embedding of `src/VSIM_Oblig_3/renderwindow.cpp` (class `RenderWindow`
of the VSIM101_Mappe repository): the render-loop core, the input-to-command
mapper, the rain-spawn toggle, the frame-rate diagnostic and the
initialization guard.  Pure functions model the C++ member functions; the
mutable members of `RenderWindow` become an explicit state record threaded
through the operations.  `float`/`QVector3D` coordinates are modelled over
`Int` (all arithmetic the claims touch is unit steps and small integer
offsets, exact in both representations).
-/

namespace VSIM

/-- `QVector3D`, restricted to the integer grid the program actually uses
(unit camera steps, integer rain-spawn coordinates). -/
structure Vec3 where
  x : Int
  y : Int
  z : Int
deriving DecidableEq, Repr

instance : Zero Vec3 := ⟨⟨0, 0, 0⟩⟩

instance : Add Vec3 := ⟨fun a b => ⟨a.x + b.x, a.y + b.y, a.z + b.z⟩⟩

theorem Vec3.add_def (a b : Vec3) :
    a + b = ⟨a.x + b.x, a.y + b.y, a.z + b.z⟩ := rfl

theorem Vec3.zero_def : (0 : Vec3) = ⟨0, 0, 0⟩ := rfl

instance : AddCommMonoid Vec3 where
  add_assoc a b c := by
    simp only [Vec3.add_def, add_assoc]
  zero_add a := by
    simp only [Vec3.add_def, Vec3.zero_def, zero_add]
  add_zero a := by
    simp only [Vec3.add_def, Vec3.zero_def, add_zero]
  add_comm a b := by
    simp only [Vec3.add_def]
    rw [add_comm a.x, add_comm a.y, add_comm a.z]
  nsmul := nsmulRec

/-- `QMatrix4x4` values as far as the render loop observes them: the loop
never inspects matrix entries, it only forwards whole matrices from the
camera to the shaders, so a matrix is an opaque tagged value. -/
structure Mat4 where
  tag : String
  args : List Int
deriving DecidableEq, Repr

/-- Modelled from the spec: `camera.cpp` is not among the provided sources.
Per §4.1 the camera recomputes its view matrix from `lookAt(eye, target, up)`
as a pure value computation; the matrix is modelled as an opaque
deterministic value of those inputs. -/
def viewMatrix (eye target up : Vec3) : Mat4 :=
  ⟨"view", [eye.x, eye.y, eye.z, target.x, target.y, target.z, up.x, up.y, up.z]⟩

/-- Modelled from the spec: `camera.cpp` is not among the provided sources.
Per §4.1 `setProjection` recomputes the projection matrix as a pure function
of (fov, aspect, near, far); modelled as an opaque deterministic value. -/
def projMatrix (fov aspectW aspectH : Int) : Mat4 :=
  ⟨"proj", [fov, aspectW, aspectH]⟩

/-- A `RollingBall` / `VisualObject` as far as the render-loop core observes
it.  Modelled from the spec: `visualobject.cpp` / `rollingball.cpp` are not
among the provided sources; §3 gives a drawable a position, a model
transform (here an update counter standing for the recomputed transform), a
lifetime counter for transient instances, and a physics-enabled flag. -/
structure Drawable where
  pos : Vec3
  life : Nat
  physicsOn : Bool
  transformTick : Nat
deriving DecidableEq, Repr

/-- `VisualObject::UpdateTransform()` — deterministic recomputation of the
model transform from current state (the tick records that it ran). -/
def Drawable.updateTransform (d : Drawable) : Drawable :=
  { d with transformTick := d.transformTick + 1 }

/-- `RollingBall::AddLife()` — advances the transient lifetime counter. -/
def Drawable.addLife (d : Drawable) : Drawable :=
  { d with life := d.life + 1 }

/-- `RollingBall::SetPosition(v)`. -/
def Drawable.setPosition (d : Drawable) (v : Vec3) : Drawable :=
  { d with pos := v }

/-- `RollingBall::EnablePhysics()`. -/
def Drawable.enablePhysics (d : Drawable) : Drawable :=
  { d with physicsOn := true }

/-- `new RollingBall("../VSIM_Oblig_3/ball.obj", shader)` followed by
`init()`: a freshly constructed, initialized ball before `SetPosition`. -/
def mkRollingBall : Drawable :=
  { pos := 0, life := 0, physicsOn := false, transformTick := 0 }

/-- The observable GL / logging / draw actions the render loop issues,
recorded as a trace. -/
inductive GLCmd where
  | makeCurrent
  | clear
  | useProgram (role : String)
  | setMat4 (role : String) (uniform : String) (m : Mat4)
  | setVec3 (role : String) (uniform : String) (v : Vec3)
  | logError (msg : String)
  | initObj (name : String)
  | drawObj (name : String)
  | drawRain (idx : Nat)
  | swapBuffers
deriving DecidableEq, Repr

/-- Whether a trace entry is a fatal-class log line (`LogType::REALERROR`). -/
def GLCmd.isLogError : GLCmd → Bool
  | .logError _ => true
  | _ => false

/-- The keys `keyPressEvent` distinguishes (`Qt::Key_...`); `other` stands
for any key the handler ignores. -/
inductive Key where
  | escape
  | w
  | s
  | a
  | d
  | q
  | e
  | i
  | other
deriving DecidableEq, Repr

/-- The movement keys of the input-to-command mapper (§4.6). -/
def Key.isMove : Key → Bool
  | .w | .s | .a | .d | .q | .e => true
  | _ => false

/-- The camera-movement part of `RenderWindow::keyPressEvent`
(renderwindow.cpp lines 312–342), faithfully including the `MovePos`
snapshot of `CamPos` taken before the chain of `if`s: each branch writes
one coordinate of `CamPos` computed from the snapshot. -/
def moveCamera (camPos : Vec3) (k : Key) : Vec3 :=
  let movePos := camPos
  let c := camPos
  let c := if k = Key.w then { c with z := movePos.z + 1 } else c
  let c := if k = Key.s then { c with z := movePos.z - 1 } else c
  let c := if k = Key.a then { c with x := movePos.x - 1 } else c
  let c := if k = Key.d then { c with x := movePos.x + 1 } else c
  let c := if k = Key.q then { c with y := movePos.y - 1 } else c
  let c := if k = Key.e then { c with y := movePos.y + 1 } else c
  c

/-- The net displacement a single key event contributes to the camera eye
position. -/
def keyDelta : Key → Vec3
  | .w => ⟨0, 0, 1⟩
  | .s => ⟨0, 0, -1⟩
  | .a => ⟨-1, 0, 0⟩
  | .d => ⟨1, 0, 0⟩
  | .q => ⟨0, -1, 0⟩
  | .e => ⟨0, 1, 0⟩
  | _ => 0

theorem moveCamera_eq_add_delta (p : Vec3) (k : Key) :
    moveCamera p k = p + keyDelta k := by
  cases k <;>
    simp [moveCamera, keyDelta, Vec3.add_def, Vec3.zero_def, Int.sub_eq_add_neg]

/-- Folding a sequence of key events through the movement handler. -/
def moveCameraSeq (p : Vec3) (ks : List Key) : Vec3 :=
  ks.foldl moveCamera p

theorem moveCameraSeq_eq_add_sum (p : Vec3) (ks : List Key) :
    moveCameraSeq p ks = p + (ks.map keyDelta).sum := by
  induction ks generalizing p with
  | nil => simp [moveCameraSeq]
  | cons k ks ih =>
      simp only [moveCameraSeq, List.foldl_cons, List.map_cons, List.sum_cons]
      rw [show List.foldl moveCamera (moveCamera p k) ks =
            moveCameraSeq (moveCamera p k) ks from rfl, ih,
          moveCamera_eq_add_delta, add_assoc]

/-! ### Frame-rate diagnostic (`RenderWindow::calculateFramerate`) -/

/-- One call of `RenderWindow::calculateFramerate` (renderwindow.cpp lines
219–236), acting on the static `frameCount`.  The sampling threshold is the
literal `30` in `if (frameCount > 30)`; it is kept as the parameter `n` (the
reference configuration is `n = 30`) so that runs with different sampling
periods can be compared.  Returns the new counter and whether the status
message was shown this frame. -/
def framerateStep (n : Nat) (hasMainWindow : Bool) (frameCount : Nat) :
    Nat × Bool :=
  if hasMainWindow then
    let fc := frameCount + 1
    if fc > n then (0, true) else (fc, false)
  else (frameCount, false)

/-- The counter value after `k` rendered frames, starting from the static
initializer `frameCount{0}`, with a main window present. -/
def framerateCounter (n : Nat) : Nat → Nat
  | 0 => 0
  | k + 1 => (framerateStep n true (framerateCounter n k)).1

/-- Number of status-bar messages emitted during the first `k` rendered
frames. -/
def framerateEmissions (n : Nat) : Nat → Nat
  | 0 => 0
  | k + 1 =>
      framerateEmissions n k +
        if (framerateStep n true (framerateCounter n k)).2 then 1 else 0

/-! ### Rain spawning (`RenderWindow::keyPressEvent`, `Qt::Key_I` branch) -/

/-- One `QVector3D RainSpawn(-10 + rand() % 20, 5, -10 + rand() % 20)`
(renderwindow.cpp line 356).  `rands` is the stream of values the C-library
`rand()` returns, `idx` the number of `rand()` calls made so far; the
constructor makes two calls, modelled as consuming `rands idx` for the X
argument and `rands (idx + 1)` for the Z argument.  (C++ leaves the order of
the two calls inside one constructor expression unspecified; either order
yields the same claims below, since both coordinates range over the same
`-10 + r % 20` form.) -/
def rainSpawnPos (rands : Nat → Nat) (idx : Nat) : Vec3 :=
  ⟨-10 + (rands idx % 20 : Nat), 5, -10 + (rands (idx + 1) % 20 : Nat)⟩

/-- The spawn loop `for(int i = 0; i < mRainAmount; i++)` (renderwindow.cpp
lines 354–370): each iteration constructs a ball, `init()`s it, sets its
position to the spawn point, enables physics and appends it to `mRainDrops`.
Returns the spawned list in spawn order. -/
def spawnRain (rands : Nat → Nat) (idx : Nat) (amount : Nat) : List Drawable :=
  (List.range amount).map fun i =>
    ((mkRollingBall.setPosition (rainSpawnPos rands (idx + 2 * i))).enablePhysics)

/-! ### Shader registry and the per-frame uniform broadcast -/

/-- The shader roles `RenderWindow::init` registers (renderwindow.cpp lines
96–103), in insertion order. -/
def initShaderRoles : List String :=
  ["PlainShader", "TextureShader", "LightShader", "HeightShader"]

/-- The body of the per-shader uniform loop (renderwindow.cpp lines
153–165) for one registered program: activate it, push `vMatrix` and
`pMatrix`; if the role is `"LightShader"`, additionally push
`(pos.x, pos.y, pos.y)` — the source passes `GetPosition().y()` twice — as
the `cameraPosition` uniform.  `camPos` is `mCamera->GetPosition()`, the eye
position the frame's `lookAt` call installed. -/
def shaderBroadcastOne (view proj : Mat4) (camPos : Vec3) (role : String) :
    List GLCmd :=
  [GLCmd.useProgram role,
   GLCmd.setMat4 role "vMatrix" view,
   GLCmd.setMat4 role "pMatrix" proj] ++
  (if role = "LightShader" then
    [GLCmd.setVec3 role "cameraPosition" ⟨camPos.x, camPos.y, camPos.y⟩]
  else [])

/-- The whole `for(auto it = mShaders.begin(); ...)` broadcast over the
registered roles. -/
def shaderBroadcast (roles : List String) (view proj : Mat4) (camPos : Vec3) :
    List GLCmd :=
  roles.flatMap (shaderBroadcastOne view proj camPos)

/-! ### The `RenderWindow` state -/

/-- The mutable members of `RenderWindow` the claims touch.  `randIdx`
counts the `rand()` calls made so far, indexing into the process-wide
pseudo-random stream. -/
structure RW where
  camPos : Vec3
  shaders : List String
  scene : List (String × Drawable)
  activateRain : Bool
  rainDrops : List Drawable
  frameCount : Nat
  mRainAmount : Nat
  width : Int
  height : Int
  mInitialized : Bool
  randIdx : Nat
  closeRequested : Bool
deriving DecidableEq, Repr

/-- Modelled from the spec: the container type of `mMap` is declared in
`renderwindow.h`, which is not among the provided sources; §2 states
"iteration order is insertion order", so the Scene Registry is modelled as
an insertion-ordered association list whose `insert` appends a fresh key. -/
def registryInsert (m : List (String × Drawable)) (k : String) (v : Drawable) :
    List (String × Drawable) :=
  if m.any (fun p => p.1 = k) then m else m ++ [(k, v)]

/-- `mMap[name]` on a key expected to be present (the reads at
renderwindow.cpp lines 122 and 148 after both inserts); the default arm is
never reached in an initialized scene. -/
def sceneLookup (scene : List (String × Drawable)) (name : String) : Drawable :=
  match scene.find? (fun p => p.1 = name) with
  | some p => p.2
  | none => mkRollingBall

/-- `new SurfaceMesh(mShaders["PlainShader"])`. -/
def mkSurfaceMesh : Drawable :=
  { pos := 0, life := 0, physicsOn := false, transformTick := 0 }

/-! ### `RenderWindow::keyPressEvent` (renderwindow.cpp lines 304–383) -/

/-- The `Qt::Key_I` branch: active → inactive clears `mRainDrops`;
inactive → active runs the spawn loop (each iteration two `rand()` calls)
and then sets `ActivateRain = true`.  `push_back` appends to whatever
`mRainDrops` already holds. -/
def toggleRain (rands : Nat → Nat) (s : RW) : RW :=
  if s.activateRain then
    { s with activateRain := false, rainDrops := [] }
  else
    { s with
      rainDrops := s.rainDrops ++ spawnRain rands s.randIdx s.mRainAmount,
      randIdx := s.randIdx + 2 * s.mRainAmount,
      activateRain := true }

/-- The whole key handler: Escape requests shutdown (`mMainWindow->close()`),
the six movement branches update `CamPos` from the `MovePos` snapshot, and
`Key_I` toggles the rain state. -/
def keyPressEvent (rands : Nat → Nat) (k : Key) (s : RW) : RW :=
  let s := if k = Key.escape then { s with closeRequested := true } else s
  let s := { s with camPos := moveCamera s.camPos k }
  if k = Key.i then toggleRain rands s else s

/-! ### `RenderWindow::render` (renderwindow.cpp lines 135–187) -/

/-- `calculateFramerate()` as it acts on the window state: only the static
counter moves (and a message may be emitted); the render loop always has a
main window, so the `mMainWindow` guard is taken. -/
def calculateFramerate (n : Nat) (s : RW) : RW × Bool :=
  let (fc, emitted) := framerateStep n true s.frameCount
  ({ s with frameCount := fc }, emitted)

/-- One frame.  `n` is the frame-rate sampling threshold (`30` in the
source), `ctxOk` the Boolean result of `mContext->makeCurrent(this)` — the
source discards it, so it is a parameter the body never reads.  Returns the
new state, the GL trace of the frame, and whether the status message was
emitted. -/
def renderFrame (n : Nat) (ctxOk : Bool) (s : RW) : RW × List GLCmd × Bool :=
  let (s₀, emitted) := calculateFramerate n s
  let fc := s₀.frameCount
  let ballPos := (sceneLookup s.scene "Ball").pos
  let view := viewMatrix s.camPos (ballPos + ⟨0, 0, 0⟩) ⟨0, 1, 0⟩
  let proj := projMatrix 90 s.width s.height
  let broadcast := shaderBroadcast s.shaders view proj s.camPos
  let dropsOut :=
    if s.activateRain then s.rainDrops.map (fun d => d.addLife.updateTransform)
    else s.rainDrops
  let rainTrace :=
    if s.activateRain then (List.range s.rainDrops.length).map GLCmd.drawRain
    else []
  let sceneOut := s.scene.map (fun p => (p.1, p.2.updateTransform))
  let sceneTrace := s.scene.map (fun p => GLCmd.drawObj p.1)
  let trace :=
    [GLCmd.makeCurrent, GLCmd.clear] ++ broadcast ++ rainTrace ++ sceneTrace ++
      [GLCmd.swapBuffers]
  ({ s with frameCount := fc, rainDrops := dropsOut, scene := sceneOut },
   trace, emitted)

/-! ### `RenderWindow::init` and `RenderWindow::exposeEvent` -/

/-- `init()` (renderwindow.cpp lines 51–132): if `makeCurrent` fails it logs
`"makeCurrent() failed"` at `LogType::REALERROR` and returns before touching
anything — in particular before `mInitialized = true`; otherwise it sets the
flag, registers the four shaders, inserts `"Surface"` then `"Ball"` into the
scene registry, wires the ball to the surface (a non-owning back-link with
no observable state here), and runs `init()` + `UpdateTransform()` over the
registry in order. -/
def initRW (ctxOk : Bool) (s : RW) : RW × List GLCmd :=
  if ctxOk then
    let s := { s with mInitialized := true, shaders := initShaderRoles }
    let scene := registryInsert s.scene "Surface" mkSurfaceMesh
    let scene := registryInsert scene "Ball" mkRollingBall
    let trace := scene.map (fun p => GLCmd.initObj p.1)
    let scene := scene.map (fun p => (p.1, p.2.updateTransform))
    ({ s with scene := scene }, trace)
  else
    (s, [GLCmd.logError "makeCurrent() failed"])

/-- `exposeEvent` (renderwindow.cpp lines 192–213): runs `init()` iff
`mInitialized` is still false.  The Boolean records whether `init()` was
entered on this notification. -/
def exposeEvent (ctxOk : Bool) (s : RW) : RW × Bool :=
  if s.mInitialized then (s, false) else ((initRW ctxOk s).1, true)

/-- A sequence of exposure notifications, each with the `makeCurrent`
outcome init would see; counts how often `init()` is entered. -/
def exposeRun : RW → List Bool → RW × Nat
  | s, [] => (s, 0)
  | s, ok :: rest =>
      let r := exposeEvent ok s
      let r2 := exposeRun r.1 rest
      (r2.1, (if r.2 then 1 else 0) + r2.2)

/-- The `RenderWindow` state right after the constructor: nothing
initialized, rain inactive, camera at the origin.  `amount` is the
configured `mRainAmount` (its initializer lives in the header, outside the
provided sources) and `w`, `h` the window dimensions. -/
def initialRW (amount : Nat) (w h : Int) : RW :=
  { camPos := 0, shaders := [], scene := [], activateRain := false,
    rainDrops := [], frameCount := 0, mRainAmount := amount, width := w,
    height := h, mInitialized := false, randIdx := 0, closeRequested := false }

/-- Running a sequence of key events through the handler. -/
def keyRun (rands : Nat → Nat) (s : RW) (ks : List Key) : RW :=
  ks.foldl (fun st k => keyPressEvent rands k st) s

/-- `k` consecutive render ticks (context acquisition succeeding), with the
frames' GL traces concatenated in order. -/
def renderRun (n : Nat) : Nat → RW → RW × List GLCmd
  | 0, s => (s, [])
  | k + 1, s =>
      let r := renderFrame n true s
      let rest := renderRun n k r.1
      (rest.1, r.2.1 ++ rest.2)

/-! ### Helper lemmas -/

theorem keyPressEvent_camPos (rands : Nat → Nat) (k : Key) (s : RW) :
    (keyPressEvent rands k s).camPos = moveCamera s.camPos k := by
  rcases k <;> simp [keyPressEvent, toggleRain, moveCamera] <;> split <;> rfl

theorem keyRun_camPos (rands : Nat → Nat) (s : RW) (ks : List Key) :
    (keyRun rands s ks).camPos = moveCameraSeq s.camPos ks := by
  induction ks generalizing s with
  | nil => rfl
  | cons k ks ih =>
      simp only [keyRun, List.foldl_cons, moveCameraSeq] at *
      rw [ih, keyPressEvent_camPos]

theorem spawnRain_length (rands : Nat → Nat) (idx amount : Nat) :
    (spawnRain rands idx amount).length = amount := by
  simp [spawnRain]

theorem rainSpawnPos_bounds (rands : Nat → Nat) (idx : Nat) :
    -10 ≤ (rainSpawnPos rands idx).x ∧ (rainSpawnPos rands idx).x ≤ 9 ∧
    (rainSpawnPos rands idx).y = 5 ∧
    -10 ≤ (rainSpawnPos rands idx).z ∧ (rainSpawnPos rands idx).z ≤ 9 := by
  have hx : rands idx % 20 < 20 := Nat.mod_lt _ (by omega)
  have hz : rands (idx + 1) % 20 < 20 := Nat.mod_lt _ (by omega)
  simp only [rainSpawnPos]
  refine ⟨by omega, by omega, by trivial, by omega, by omega⟩

theorem spawnRain_mem_spec (rands : Nat → Nat) (idx amount : Nat)
    (d : Drawable) (hd : d ∈ spawnRain rands idx amount) :
    d.physicsOn = true ∧ d.life = 0 ∧
    -10 ≤ d.pos.x ∧ d.pos.x ≤ 9 ∧ d.pos.y = 5 ∧
    -10 ≤ d.pos.z ∧ d.pos.z ≤ 9 := by
  simp only [spawnRain, List.mem_map, List.mem_range] at hd
  obtain ⟨i, _, rfl⟩ := hd
  have hb := rainSpawnPos_bounds rands (idx + 2 * i)
  exact ⟨rfl, rfl, hb.1, hb.2.1, hb.2.2.1, hb.2.2.2.1, hb.2.2.2.2⟩

/-- Whether a trace entry is a scene-registry draw call. -/
def GLCmd.isDrawObj : GLCmd → Bool
  | .drawObj _ => true
  | _ => false

theorem shaderBroadcastOne_filter_drawObj (view proj : Mat4) (c : Vec3)
    (role : String) :
    (shaderBroadcastOne view proj c role).filter GLCmd.isDrawObj = [] := by
  simp only [shaderBroadcastOne]
  split <;> rfl

theorem shaderBroadcast_filter_drawObj (roles : List String)
    (view proj : Mat4) (c : Vec3) :
    (shaderBroadcast roles view proj c).filter GLCmd.isDrawObj = [] := by
  induction roles with
  | nil => rfl
  | cons r rs ih =>
      simp only [shaderBroadcast, List.flatMap_cons, List.filter_append,
        shaderBroadcastOne_filter_drawObj, List.nil_append] at *
      exact ih

theorem drawRain_filter_drawObj (l : List Nat) :
    (l.map GLCmd.drawRain).filter GLCmd.isDrawObj = [] := by
  induction l <;> simp_all [GLCmd.isDrawObj]

theorem drawObjs_filter_drawObj (l : List (String × Drawable)) :
    ((l.map fun p => GLCmd.drawObj p.1).filter GLCmd.isDrawObj) =
      l.map fun p => GLCmd.drawObj p.1 := by
  induction l with
  | nil => rfl
  | cons a l ih =>
      have hp : GLCmd.isDrawObj (GLCmd.drawObj a.1) = true := rfl
      simp only [List.map_cons, List.filter_cons, hp, if_true, ih]

/-- Projecting a frame's GL trace onto the scene-registry draw calls gives
exactly the registry's objects, in registry-iteration order. -/
theorem renderFrame_draw_objs (n : Nat) (ctxOk : Bool) (s : RW) :
    (renderFrame n ctxOk s).2.1.filter GLCmd.isDrawObj =
      s.scene.map fun p => GLCmd.drawObj p.1 := by
  by_cases hr : s.activateRain <;>
    simp [renderFrame, calculateFramerate, hr, List.filter_append,
      shaderBroadcast_filter_drawObj, drawRain_filter_drawObj,
      drawObjs_filter_drawObj, GLCmd.isDrawObj]

theorem shaderBroadcastOne_countP_log (view proj : Mat4) (c : Vec3)
    (role : String) :
    (shaderBroadcastOne view proj c role).countP GLCmd.isLogError = 0 := by
  simp only [shaderBroadcastOne]
  split <;> rfl

theorem shaderBroadcast_countP_log (roles : List String) (view proj : Mat4)
    (c : Vec3) :
    (shaderBroadcast roles view proj c).countP GLCmd.isLogError = 0 := by
  induction roles with
  | nil => rfl
  | cons r rs ih =>
      simp only [shaderBroadcast, List.flatMap_cons, List.countP_append,
        shaderBroadcastOne_countP_log, Nat.zero_add] at *
      exact ih

theorem drawRain_countP_log (l : List Nat) :
    (l.map GLCmd.drawRain).countP GLCmd.isLogError = 0 := by
  induction l with
  | nil => rfl
  | cons a l ih =>
      simp only [List.map_cons, List.countP_cons, ih]
      rfl

theorem drawObjs_countP_log (l : List (String × Drawable)) :
    (l.map fun p => GLCmd.drawObj p.1).countP GLCmd.isLogError = 0 := by
  induction l with
  | nil => rfl
  | cons a l ih =>
      simp only [List.map_cons, List.countP_cons, ih]
      rfl

/-- A rendered frame never writes a fatal-class log line: the trace contains
no `logError` entry whatever the state. -/
theorem renderFrame_no_log (n : Nat) (ctxOk : Bool) (s : RW) :
    (renderFrame n ctxOk s).2.1.countP GLCmd.isLogError = 0 := by
  by_cases hr : s.activateRain <;>
    simp [renderFrame, calculateFramerate, hr, List.countP_append,
      List.countP_cons, shaderBroadcast_countP_log, drawRain_countP_log,
      drawObjs_countP_log, GLCmd.isLogError]

/-! ### Claim theorems -/

/-- Claim C1: in the per-frame uniform broadcast, every registered shader
program is activated and receives the camera's view and projection matrices;
the `"LightShader"` role additionally receives the camera eye position as
the `cameraPosition` uniform, with the camera's Y-coordinate as the pushed
vector's third component (Y passed twice instead of Z); and the uniform
broadcast inside a rendered frame pushes exactly that vector for the lit
role whenever it is registered. -/
theorem C1_lit_uniform_broadcast (roles : List String) (view proj : Mat4)
    (camPos : Vec3) (role : String) (hmem : role ∈ roles)
    (n : Nat) (ctxOk : Bool) (s : RW) (hlit : "LightShader" ∈ s.shaders) :
    GLCmd.useProgram role ∈ shaderBroadcast roles view proj camPos ∧
    GLCmd.setMat4 role "vMatrix" view ∈ shaderBroadcast roles view proj camPos ∧
    GLCmd.setMat4 role "pMatrix" proj ∈ shaderBroadcast roles view proj camPos ∧
    (role = "LightShader" →
      GLCmd.setVec3 role "cameraPosition" ⟨camPos.x, camPos.y, camPos.y⟩ ∈
        shaderBroadcast roles view proj camPos) ∧
    GLCmd.setVec3 "LightShader" "cameraPosition"
        ⟨s.camPos.x, s.camPos.y, s.camPos.y⟩ ∈ (renderFrame n ctxOk s).2.1 := by
  refine ⟨?_, ?_, ?_, ?_, ?_⟩
  · exact List.mem_flatMap.mpr ⟨role, hmem, by simp [shaderBroadcastOne]⟩
  · exact List.mem_flatMap.mpr ⟨role, hmem, by simp [shaderBroadcastOne]⟩
  · exact List.mem_flatMap.mpr ⟨role, hmem, by simp [shaderBroadcastOne]⟩
  · intro h
    exact List.mem_flatMap.mpr ⟨role, hmem, by simp [shaderBroadcastOne, h]⟩
  · have hb : GLCmd.setVec3 "LightShader" "cameraPosition"
        ⟨s.camPos.x, s.camPos.y, s.camPos.y⟩ ∈
        shaderBroadcast s.shaders
          (viewMatrix s.camPos ((sceneLookup s.scene "Ball").pos + ⟨0, 0, 0⟩)
            ⟨0, 1, 0⟩)
          (projMatrix 90 s.width s.height) s.camPos :=
      List.mem_flatMap.mpr ⟨"LightShader", hlit, by simp [shaderBroadcastOne]⟩
    simp only [renderFrame, calculateFramerate, List.mem_append, List.mem_cons]
    tauto

/-- Witness for C1 at a concrete registry and camera position. -/
theorem C1_lit_uniform_broadcast_witness :
    "LightShader" ∈ initShaderRoles ∧
    GLCmd.setVec3 "LightShader" "cameraPosition" ⟨1, 2, 2⟩ ∈
      shaderBroadcast initShaderRoles ⟨"view", []⟩ ⟨"proj", []⟩ ⟨1, 2, 3⟩ := by
  have h := C1_lit_uniform_broadcast initShaderRoles ⟨"view", []⟩ ⟨"proj", []⟩
    ⟨1, 2, 3⟩ "LightShader" (by decide) 30 true
    { initialRW 2 1 1 with shaders := initShaderRoles } (by decide)
  exact ⟨by decide, h.2.2.2.1 rfl⟩

/-- Claim C2 (against the spec-modelled insertion-ordered registry): after
`init()`, the Scene Registry holds `"Surface"` before `"Ball"` — the
insertion order — its initialization loop visits them in that order, and the
per-frame update+draw loop draws them in that order. -/
theorem C2_registry_insertion_order (amount : Nat) (w h : Int) (n : Nat)
    (ctxOk : Bool) :
    ((initRW true (initialRW amount w h)).1.scene.map Prod.fst =
        ["Surface", "Ball"]) ∧
    ((initRW true (initialRW amount w h)).2 =
        [GLCmd.initObj "Surface", GLCmd.initObj "Ball"]) ∧
    ((renderFrame n ctxOk (initRW true (initialRW amount w h)).1).2.1.filter
        GLCmd.isDrawObj = [GLCmd.drawObj "Surface", GLCmd.drawObj "Ball"]) := by
  refine ⟨rfl, rfl, ?_⟩
  rw [renderFrame_draw_objs]
  rfl

/-- Counterexample to claim C3: a frame whose `makeCurrent` fails is not
abandoned — starting from the initialized scene, the failing frame's trace
still contains the buffer clear and the buffer swap, and no fatal-class log
line is written. -/
theorem C3_counterexample :
    GLCmd.clear ∈
        (renderFrame 30 false ((initRW true (initialRW 2 1 1)).1)).2.1 ∧
    GLCmd.swapBuffers ∈
        (renderFrame 30 false ((initRW true (initialRW 2 1 1)).1)).2.1 ∧
    (renderFrame 30 false ((initRW true (initialRW 2 1 1)).1)).2.1.countP
        GLCmd.isLogError = 0 := by
  refine ⟨?_, ?_, renderFrame_no_log 30 false _⟩ <;> decide

/-- Claim C3 as amended: only the initialization path reacts to a
`makeCurrent` failure — `init()` logs `"makeCurrent() failed"` as a
fatal-class diagnostic and stops (leaving `mInitialized` unchanged) — while
the per-frame render path ignores the result of `makeCurrent` entirely: the
frame is bit-identical whether context acquisition succeeds or fails, it
always issues the clear and the buffer swap, and it never logs. -/
theorem C3_context_failure (n : Nat) (s : RW) :
    initRW false s = (s, [GLCmd.logError "makeCurrent() failed"]) ∧
    (initRW false s).1.mInitialized = s.mInitialized ∧
    renderFrame n false s = renderFrame n true s ∧
    GLCmd.clear ∈ (renderFrame n false s).2.1 ∧
    GLCmd.swapBuffers ∈ (renderFrame n false s).2.1 ∧
    (renderFrame n false s).2.1.countP GLCmd.isLogError = 0 := by
  refine ⟨rfl, rfl, rfl, ?_, ?_, renderFrame_no_log n false s⟩ <;>
    simp [renderFrame, calculateFramerate]

/-- Counterexample to claim C4: the spawned rain positions need not be
distinct — with a PRNG stream returning 0 twice in a row, toggling rain on
with `mRainAmount = 2` spawns two drops at the same position `(-10, 5, -10)`. -/
theorem C4_counterexample :
    (keyPressEvent (fun _ => 0) Key.i (initialRW 2 1 1)).activateRain = true ∧
    ((keyPressEvent (fun _ => 0) Key.i (initialRW 2 1 1)).rainDrops.map
        Drawable.pos) = [⟨-10, 5, -10⟩, ⟨-10, 5, -10⟩] := by decide

/-- Claim C4 as amended: toggling rain from inactive to active spawns
exactly `mRainAmount` physics-enabled drops, appended in spawn order, each
at a PRNG-derived position with X and Z in `[-10, 9]` and height exactly 5 —
but the positions are not guaranteed pairwise distinct; toggling from active
to inactive clears the transient sequence to size zero. -/
theorem C4_rain_toggle (rands : Nat → Nat) (s : RW)
    (hoff : s.activateRain = false) (hempty : s.rainDrops = []) :
    ((keyPressEvent rands Key.i s).activateRain = true) ∧
    ((keyPressEvent rands Key.i s).rainDrops =
        spawnRain rands s.randIdx s.mRainAmount) ∧
    ((keyPressEvent rands Key.i s).rainDrops.length = s.mRainAmount) ∧
    (∀ d ∈ (keyPressEvent rands Key.i s).rainDrops,
        d.physicsOn = true ∧ -10 ≤ d.pos.x ∧ d.pos.x ≤ 9 ∧ d.pos.y = 5 ∧
        -10 ≤ d.pos.z ∧ d.pos.z ≤ 9) ∧
    (∀ s₂ : RW, s₂.activateRain = true →
        (keyPressEvent rands Key.i s₂).activateRain = false ∧
        (keyPressEvent rands Key.i s₂).rainDrops = []) := by
  have hkey : ∀ t : RW, keyPressEvent rands Key.i t = toggleRain rands t :=
    fun t => rfl
  rw [hkey]
  refine ⟨?_, ?_, ?_, ?_, ?_⟩
  · simp [toggleRain, hoff]
  · simp [toggleRain, hoff, hempty]
  · simp [toggleRain, hoff, hempty, spawnRain_length]
  · intro d hd
    simp only [toggleRain, hoff, Bool.false_eq_true, if_false, hempty,
      List.nil_append] at hd
    have h := spawnRain_mem_spec rands s.randIdx s.mRainAmount d hd
    exact ⟨h.1, h.2.2.1, h.2.2.2.1, h.2.2.2.2.1, h.2.2.2.2.2.1,
      h.2.2.2.2.2.2⟩
  · intro s₂ h₂
    rw [hkey]
    simp [toggleRain, h₂]

/-- Witness for C4 at a concrete inactive state with `mRainAmount = 3`. -/
theorem C4_rain_toggle_witness :
    (initialRW 3 1 1).activateRain = false ∧
    (keyPressEvent (fun j => j) Key.i (initialRW 3 1 1)).rainDrops.length =
      3 := by
  have h := C4_rain_toggle (fun j => j) (initialRW 3 1 1) rfl rfl
  exact ⟨rfl, h.2.2.1⟩

/-- Claim C5: a sequence of movement-key events moves the camera eye to the
initial position plus the sum of the events' unit steps (W/S on Z, A/D on X,
Q/E on Y), and the accumulation is order-independent: any permutation of the
event sequence yields the same final position. -/
theorem C5_camera_accumulation (rands : Nat → Nat) (s : RW)
    (ks ks' : List Key) (hmove : ∀ k ∈ ks, k.isMove = true)
    (hperm : ks.Perm ks') :
    (keyRun rands s ks).camPos = s.camPos + (ks.map keyDelta).sum ∧
    (keyRun rands s ks').camPos = (keyRun rands s ks).camPos := by
  have hsum : ∀ l : List Key,
      (keyRun rands s l).camPos = s.camPos + (l.map keyDelta).sum := by
    intro l
    rw [keyRun_camPos, moveCameraSeq_eq_add_sum]
  refine ⟨hsum ks, ?_⟩
  rw [hsum ks, hsum ks', (hperm.map keyDelta).sum_eq]

/-- Witness for C5: W then A from the initial camera, against A then W. -/
theorem C5_camera_accumulation_witness :
    (keyRun (fun j => j) (initialRW 2 1 1) [Key.w, Key.a]).camPos =
        (0 : Vec3) + ([Key.w, Key.a].map keyDelta).sum ∧
    (keyRun (fun j => j) (initialRW 2 1 1) [Key.a, Key.w]).camPos =
      (keyRun (fun j => j) (initialRW 2 1 1) [Key.w, Key.a]).camPos := by
  have h := C5_camera_accumulation (fun j => j) (initialRW 2 1 1)
    [Key.w, Key.a] [Key.a, Key.w] (by decide) (by decide)
  exact h

/-- Claim C6 (the code's behaviour at the claimed schedule): starting from
the static counter's initializer 0, no status message is emitted during the
first 30 rendered frames; the first message appears at frame 31 and the
second at frame 62 — the guard `frameCount > 30`, tested after the
increment, makes the period 31 frames, not the 30 the claim (and the
source's own comment, "once pr 30 frames") state. -/
theorem C6_framerate_period :
    framerateEmissions 30 30 = 0 ∧
    framerateEmissions 30 31 = 1 ∧
    framerateEmissions 30 60 = 1 ∧
    framerateEmissions 30 62 = 2 := by decide

/-- Claim C10: the rain-spawn positions are a deterministic function of the
C-library PRNG stream: two spawns that read identical values from the stream
produce pairwise identical drops, and every spawned drop has integer X and Z
in `[-10, 9]` and height exactly 5.  Since the source never seeds the PRNG,
the first toggle after process start reads the same (default-seeded) stream
prefix on every run, so its positions are the same on every run. -/
theorem C10_rain_spawn_deterministic (r₁ r₂ : Nat → Nat) (idx amount : Nat)
    (hagree : ∀ j, j < 2 * amount → r₁ (idx + j) = r₂ (idx + j)) :
    spawnRain r₁ idx amount = spawnRain r₂ idx amount ∧
    ∀ d ∈ spawnRain r₁ idx amount,
      -10 ≤ d.pos.x ∧ d.pos.x ≤ 9 ∧ d.pos.y = 5 ∧
      -10 ≤ d.pos.z ∧ d.pos.z ≤ 9 := by
  constructor
  · simp only [spawnRain]
    apply List.map_congr_left
    intro i hi
    have hi' : i < amount := List.mem_range.mp hi
    have h₁ : r₁ (idx + 2 * i) = r₂ (idx + 2 * i) := hagree (2 * i) (by omega)
    have h₂ : r₁ (idx + 2 * i + 1) = r₂ (idx + 2 * i + 1) := by
      have := hagree (2 * i + 1) (by omega)
      simpa [← Nat.add_assoc] using this
    simp [rainSpawnPos, h₁, h₂]
  · intro d hd
    have h := spawnRain_mem_spec r₁ idx amount d hd
    exact ⟨h.2.2.1, h.2.2.2.1, h.2.2.2.2.1, h.2.2.2.2.2.1, h.2.2.2.2.2.2⟩

/-- Witness for C10: two streams that agree on the six values a three-drop
spawn reads produce identical drops. -/
theorem C10_rain_spawn_deterministic_witness :
    spawnRain (fun j => j) 0 3 =
      spawnRain (fun j => if j < 6 then j else 99) 0 3 ∧
    ∀ d ∈ spawnRain (fun j => j) 0 3,
      -10 ≤ d.pos.x ∧ d.pos.x ≤ 9 ∧ d.pos.y = 5 ∧
      -10 ≤ d.pos.z ∧ d.pos.z ≤ 9 := by
  have h := C10_rain_spawn_deterministic (fun j => j)
    (fun j => if j < 6 then j else 99) 0 3 (by decide)
  exact h

/-- A window state with the frame counter blanked: two states agreeing here
agree on everything the render pipeline reads. -/
def eraseFC (s : RW) : RW := { s with frameCount := 0 }

theorem renderFrame_fc_independent (n₁ n₂ : Nat) (c₁ c₂ : Bool) (s₁ s₂ : RW)
    (h : eraseFC s₁ = eraseFC s₂) :
    (renderFrame n₁ c₁ s₁).2.1 = (renderFrame n₂ c₂ s₂).2.1 ∧
    eraseFC (renderFrame n₁ c₁ s₁).1 = eraseFC (renderFrame n₂ c₂ s₂).1 := by
  cases s₁
  cases s₂
  simp only [eraseFC, RW.mk.injEq] at h
  obtain ⟨h1, h2, h3, h4, h5, -, h7, h8, h9, h10, h11, h12⟩ := h
  subst h1 h2 h3 h4 h5 h7 h8 h9 h10 h11 h12
  exact ⟨rfl, rfl⟩

theorem renderRun_trace_fc_independent (n₁ n₂ k : Nat) (s₁ s₂ : RW)
    (h : eraseFC s₁ = eraseFC s₂) :
    (renderRun n₁ k s₁).2 = (renderRun n₂ k s₂).2 ∧
    eraseFC (renderRun n₁ k s₁).1 = eraseFC (renderRun n₂ k s₂).1 := by
  induction k generalizing s₁ s₂ with
  | zero => exact ⟨rfl, h⟩
  | succ k ih =>
      have hf := renderFrame_fc_independent n₁ n₂ true true s₁ s₂ h
      have hr := ih _ _ hf.2
      simp only [renderRun]
      exact ⟨by rw [hf.1, hr.1], hr.2⟩

/-- Claim C7: the frame-rate sampling is a pure observer — a
`calculateFramerate` call leaves the camera, the Scene Registry, the
rain-active flag and the transient sequence untouched, and rendering any
number of frames with sampling period 1 produces exactly the same GL output
sequence as with sampling period 1000. -/
theorem C7_framerate_pure_observer (n : Nat) (s : RW) (k : Nat) :
    ((calculateFramerate n s).1.camPos = s.camPos ∧
     (calculateFramerate n s).1.scene = s.scene ∧
     (calculateFramerate n s).1.activateRain = s.activateRain ∧
     (calculateFramerate n s).1.rainDrops = s.rainDrops) ∧
    (renderRun 1 k s).2 = (renderRun 1000 k s).2 := by
  exact ⟨⟨rfl, rfl, rfl, rfl⟩,
    (renderRun_trace_fc_independent 1 1000 k s s rfl).1⟩

/-- Counterexample to claim C8: initialization does not necessarily happen
exactly once on the first exposure notification — when `makeCurrent` fails
during the first `init()`, the initialized flag stays unset and the second
notification enters `init()` again: two entries across the two
notifications. -/
theorem C8_counterexample :
    (exposeRun (initialRW 2 1 1) [false, true]).2 = 2 := by decide

theorem exposeRun_initialized (oks : List Bool) (s : RW)
    (h : s.mInitialized = true) :
    (exposeRun s oks).2 = 0 ∧ (exposeRun s oks).1 = s := by
  induction oks with
  | nil => exact ⟨rfl, rfl⟩
  | cons ok rest ih =>
      simp only [exposeRun, exposeEvent, h, if_true, ih]
      simp

/-- Claim C8 as amended: once the initialized flag is set, every further
exposure notification is an idempotent no-op that never enters `init()`;
`init()` is re-entered on each notification only until the first one whose
`makeCurrent` succeeds — in particular, when context acquisition succeeds at
the first notification, `init()` runs exactly once over the whole
notification sequence. -/
theorem C8_init_guard (oks : List Bool) (ok : Bool) (s : RW)
    (hinit : s.mInitialized = true) (amount : Nat) (w h : Int) :
    exposeEvent ok s = (s, false) ∧
    (exposeRun (initialRW amount w h) (true :: oks)).2 = 1 := by
  constructor
  · simp [exposeEvent, hinit]
  · simp only [exposeRun]
    have h1 : (exposeEvent true (initialRW amount w h)).2 = true := rfl
    have h2 : ((exposeEvent true (initialRW amount w h)).1).mInitialized =
        true := rfl
    rw [h1, (exposeRun_initialized oks _ h2).1]
    simp

/-- Witness for C8: a window already initialized ignores a failing exposure,
and a first-success run enters `init()` exactly once. -/
theorem C8_init_guard_witness :
    exposeEvent false { initialRW 1 1 1 with mInitialized := true } =
      ({ initialRW 1 1 1 with mInitialized := true }, false) ∧
    (exposeRun (initialRW 1 1 1) [true, false]).2 = 1 := by
  have h := C8_init_guard [false] false
    { initialRW 1 1 1 with mInitialized := true } rfl 1 1 1
  exact ⟨h.1, h.2⟩

theorem keyPressEvent_rain_fields (rands : Nat → Nat) (k : Key) (s : RW)
    (hk : k ≠ Key.i) :
    (keyPressEvent rands k s).activateRain = s.activateRain ∧
    (keyPressEvent rands k s).rainDrops = s.rainDrops := by
  simp only [keyPressEvent]
  rw [if_neg hk]
  split <;> exact ⟨rfl, rfl⟩

theorem renderFrame_rain_drops (n : Nat) (ctxOk : Bool) (s : RW) :
    (renderFrame n ctxOk s).1.rainDrops =
      (if s.activateRain then
        s.rainDrops.map fun d => d.addLife.updateTransform
      else s.rainDrops) := rfl

/-- The rain-state invariant of C9: the rain-active flag holds exactly when
the transient sequence is non-empty. -/
def rainInv (s : RW) : Prop := s.activateRain = true ↔ s.rainDrops ≠ []

/-- Claim C9: assuming a positive configured rain count, the invariant
"rain-active iff the transient sequence is non-empty" is preserved by every
key event and every rendered frame; moreover no key other than the rain
toggle changes the flag or the sequence, and a rendered frame changes
neither the flag nor the sequence's length. -/
theorem C9_rain_invariant (rands : Nat → Nat) (k : Key) (n : Nat)
    (ctxOk : Bool) (s : RW) (hamt : 0 < s.mRainAmount) (hinv : rainInv s) :
    rainInv (keyPressEvent rands k s) ∧
    rainInv (renderFrame n ctxOk s).1 ∧
    (k ≠ Key.i →
      (keyPressEvent rands k s).activateRain = s.activateRain ∧
      (keyPressEvent rands k s).rainDrops = s.rainDrops) ∧
    ((renderFrame n ctxOk s).1.activateRain = s.activateRain ∧
     (renderFrame n ctxOk s).1.rainDrops.length = s.rainDrops.length) := by
  have hrflag : (renderFrame n ctxOk s).1.activateRain = s.activateRain := rfl
  have hrd := renderFrame_rain_drops n ctxOk s
  refine ⟨?_, ?_, keyPressEvent_rain_fields rands k s, hrflag, ?_⟩
  · by_cases hk : k = Key.i
    · subst hk
      have hkey : keyPressEvent rands Key.i s = toggleRain rands s := rfl
      rw [hkey]
      unfold rainInv at *
      by_cases hr : s.activateRain = true
      · simp [toggleRain, hr]
      · have hempty : s.rainDrops = [] := by
          by_contra hne
          exact hr (hinv.mpr hne)
        simp only [toggleRain, hr, Bool.false_eq_true, if_false, hempty,
          List.nil_append]
        constructor
        · intro _
          have hlen := spawnRain_length rands s.randIdx s.mRainAmount
          intro hnil
          rw [hnil] at hlen
          simp at hlen
          omega
        · intro _
          trivial
    · have hf := keyPressEvent_rain_fields rands k s hk
      unfold rainInv at *
      rw [hf.1, hf.2]
      exact hinv
  · unfold rainInv at *
    rw [hrflag, hrd]
    by_cases hr : s.activateRain = true <;>
      simp [hr, hinv, List.map_eq_nil_iff] <;> tauto
  · rw [hrd]
    split <;> simp

/-- Witness for C9 at the freshly constructed window with `mRainAmount = 2`
and a movement key. -/
theorem C9_rain_invariant_witness :
    (0 < (initialRW 2 1 1).mRainAmount) ∧
    rainInv (keyPressEvent (fun j => j) Key.w (initialRW 2 1 1)) := by
  have hinv : rainInv (initialRW 2 1 1) := by
    unfold rainInv
    decide
  have h := C9_rain_invariant (fun j => j) Key.w 30 true (initialRW 2 1 1)
    (by decide) hinv
  exact ⟨by decide, h.1⟩

end VSIM
